import Mathlib

/-!
Shallow embedding of the decision core of `src/core/main.py` (drift-arb-bot):
the arbitrage direction resolver, the balance gate, the two-leg executor with
its profit accounting, the dynamic allocation planner, and the bot state with
its order tracking counters.  Python floats are modelled as rationals; calls
to external venues (balance queries, order placement) are modelled as
environment values that either return a result or raise an exception carrying
a message string, mirroring the `try`/`except` structure of the source.
-/

namespace DriftArb

/-- Input consumed by the executor: `opportunity` dict fields used by
`determine_arbitrage_direction` and `execute_arbitrage`. -/
structure Opportunity where
  pair : String
  spot_price : ℚ
  perp_price : ℚ

/-- Result dict of `ArbitrageExecutor.determine_arbitrage_direction`
(main.py lines 93-113). -/
structure TradeDirection where
  action : String
  binance_side : String
  drift_side : String
  reasoning : String
deriving DecidableEq

/-- ArbitrageExecutor.determine_arbitrage_direction (main.py lines 93-113).
The numeric formatting of the rationale string is abstracted to `toString`. -/
def determine_arbitrage_direction (opportunity : Opportunity) : TradeDirection :=
  let spot_price := opportunity.spot_price
  let perp_price := opportunity.perp_price
  if perp_price > spot_price then
    { action := "BUY_SPOT_SELL_PERP"
      binance_side := "BUY"
      drift_side := "SHORT"
      reasoning := "Perp (" ++ toString perp_price ++ ") > Spot (" ++ toString spot_price
        ++ ") - Buy spot, Short perp" }
  else
    { action := "SELL_SPOT_BUY_PERP"
      binance_side := "SELL"
      drift_side := "LONG"
      reasoning := "Spot (" ++ toString spot_price ++ ") > Perp (" ++ toString perp_price
        ++ ") - Sell spot, Long perp" }

/-- Outcome of the `self.binance.get_all_balances()` call inside
`check_required_balances`: either the USDT and SOL balances, or a raised
exception carrying its message string. -/
inductive BalancesCall where
  | ok (usdt sol : ℚ)
  | exn (msg : String)

/-- The dict built by the non-exception branches of `check_required_balances`
(main.py lines 129-145): the `required`/`available` display strings are carried
as their numeric content plus currency unit. -/
structure BalanceOk where
  sufficient : Bool
  required : ℚ
  required_unit : String
  available : ℚ
  available_unit : String
  action : String

/-- Result dict of `check_required_balances`: either the structured check, or
the `except` branch dict `{sufficient: False, error: str(e)}` (main.py
lines 147-152), which carries no `required`/`available` keys. -/
inductive BalanceCheckResult where
  | ok (r : BalanceOk)
  | queryError (error : String)

/-- The `balance_check['sufficient']` key, present in both variants. -/
def BalanceCheckResult.sufficient : BalanceCheckResult → Bool
  | .ok r => r.sufficient
  | .queryError _ => false

/-- ArbitrageExecutor.check_required_balances (main.py lines 115-152). -/
def check_required_balances (balances : BalancesCall) (direction : TradeDirection)
    (trade_size_usd spot_price : ℚ) : BalanceCheckResult :=
  match balances with
  | .exn msg => .queryError msg
  | .ok usdt_balance sol_balance =>
    let sol_quantity := trade_size_usd / spot_price
    if direction.binance_side = "BUY" then
      let required_usdt := trade_size_usd * 1.001
      .ok { sufficient := decide (usdt_balance ≥ required_usdt)
            required := required_usdt
            required_unit := "USDT"
            available := usdt_balance
            available_unit := "USDT"
            action := "Buy SOL with USDT" }
    else
      let required_sol := sol_quantity * 1.001
      .ok { sufficient := decide (sol_balance ≥ required_sol)
            required := required_sol
            required_unit := "SOL"
            available := sol_balance
            available_unit := "SOL"
            action := "Sell SOL for USDT" }

/-- An order confirmation as returned by a venue client. -/
structure VenueOrder where
  orderId : String
  status : String

/-- Outcome of a venue order-placement call: a returned value (`none` models
the falsy "order failed" return) or a raised exception with its message. -/
inductive OrderCall where
  | ret (order : Option VenueOrder)
  | exn (msg : String)

/-- The `trade_details` dict of a successful execution (main.py
lines 235-245). -/
structure TradeDetails where
  sol_quantity : ℚ
  trade_size_usd : ℚ
  spot_price : ℚ
  perp_price : ℚ
  profit_per_unit : ℚ
  gross_profit : ℚ
  estimated_fees : ℚ
  net_profit : ℚ
  roi_percent : ℚ

/-- Result dict of `execute_arbitrage` and of
`_execute_professional_arbitrage`; keys absent from a given branch's dict are
`none`. -/
structure ExecResult where
  success : Bool
  error : Option String := none
  direction : Option TradeDirection := none
  balance_check : Option BalanceCheckResult := none
  binance_order : Option VenueOrder := none
  drift_order : Option VenueOrder := none
  trade_details : Option TradeDetails := none

/-- Environment for one `execute_arbitrage` run: the outcome of the balance
query and of the two order-placement calls. -/
structure ExecEnv where
  balances : BalancesCall
  binance_order : OrderCall
  drift_order : OrderCall

/-- Message of the `KeyError` raised when the insufficient-balance log line
reads `balance_check['required']` on the query-error dict, which lacks that
key (main.py line 166); `str(KeyError('required'))` is `"'required'"`. -/
def keyErrorRequired : String := "'required'"

/-- ArbitrageExecutor.execute_arbitrage (main.py lines 154-254).  Every raise
site sits inside the method's `try`, so each exception is rendered as a
failure result by the outer handler rather than propagated. -/
def execute_arbitrage (env : ExecEnv) (opportunity : Opportunity)
    (trade_size_usd : ℚ) : ExecResult :=
  let direction := determine_arbitrage_direction opportunity
  let balance_check :=
    check_required_balances env.balances direction trade_size_usd opportunity.spot_price
  match balance_check with
  | .queryError _ =>
    { success := false, error := some keyErrorRequired, direction := some direction }
  | .ok bc =>
    if bc.sufficient = false then
      { success := false, error := some "Insufficient balance"
        direction := some direction, balance_check := some (.ok bc) }
    else
      let sol_quantity := trade_size_usd / opportunity.spot_price
      match env.binance_order with
      | .exn msg =>
        { success := false, error := some msg, direction := some direction }
      | .ret none =>
        { success := false, error := some "Binance order failed"
          direction := some direction }
      | .ret (some binance_order) =>
        match env.drift_order with
        | .exn msg =>
          { success := false, error := some msg, direction := some direction }
        | .ret none =>
          { success := false, error := some "Drift order failed"
            direction := some direction, binance_order := some binance_order }
        | .ret (some drift_order) =>
          let profit_per_unit :=
            if direction.binance_side = "BUY" then
              opportunity.perp_price - opportunity.spot_price
            else
              opportunity.spot_price - opportunity.perp_price
          let gross_profit := profit_per_unit * sol_quantity
          let estimated_fees := trade_size_usd * 0.002
          let net_profit := gross_profit - estimated_fees
          { success := true
            direction := some direction
            binance_order := some binance_order
            drift_order := some drift_order
            trade_details := some
              { sol_quantity := sol_quantity
                trade_size_usd := trade_size_usd
                spot_price := opportunity.spot_price
                perp_price := opportunity.perp_price
                profit_per_unit := profit_per_unit
                gross_profit := gross_profit
                estimated_fees := estimated_fees
                net_profit := net_profit
                roi_percent := net_profit / trade_size_usd * 100 } }

/-- An entry of `self.active_orders` (main.py lines 542-548). -/
structure OrderRecord where
  order_id : String
  allocated_amount : ℚ
  timestamp : ℕ
  pair : String
  result : ExecResult

/-- Minimum trade size enforced by the allocation clamp (main.py line 367). -/
def min_trade_size : ℚ := 50

/-- Maximum trade size enforced by the allocation clamp (main.py line 368). -/
def max_trade_size : ℚ := 200

/-- The `used_capital` sum over active orders (main.py line 359). -/
def used_capital (active_orders : List OrderRecord) : ℚ :=
  (active_orders.map (fun order => order.allocated_amount)).sum

/-- The tiered allocation before the min/max clamp
(main.py lines 352-364). -/
def raw_allocation (effective_balance : ℚ)
    (active_orders : List OrderRecord) : ℚ :=
  if active_orders.length = 0 then
    effective_balance * 0.45
  else if active_orders.length = 1 then
    let remaining_balance := effective_balance - used_capital active_orders
    remaining_balance * 0.90
  else
    0

/-- The min/max clamp applied to the tiered allocation
(main.py lines 370-373). -/
def clamp_allocation (allocation : ℚ) : ℚ :=
  if allocation < min_trade_size then 0
  else if allocation > max_trade_size then max_trade_size
  else allocation

/-- The dict returned by the non-exception path of
`calculate_dynamic_allocation` (main.py lines 379-387). -/
structure AllocationData where
  binance_balance : ℚ
  drift_balance : ℚ
  effective_balance : ℚ
  active_orders : ℕ
  allocation : ℚ
  can_trade : Bool
  reason : String

/-- Happy-path body of DriftArbBot.calculate_dynamic_allocation
(main.py lines 348-387), as a function of the two fetched balances and the
active-order list. -/
def calculate_dynamic_allocation (binance_balance drift_balance : ℚ)
    (active_orders : List OrderRecord) : AllocationData :=
  let effective_balance := min binance_balance drift_balance
  let active_order_count := active_orders.length
  let allocation := clamp_allocation (raw_allocation effective_balance active_orders)
  { binance_balance := binance_balance
    drift_balance := drift_balance
    effective_balance := effective_balance
    active_orders := active_order_count
    allocation := allocation
    can_trade := decide (allocation ≥ min_trade_size)
    reason := "Order " ++ toString (active_order_count + 1) ++ " of 2: "
      ++ toString allocation ++ " available" }

/-- Outcome of the balance fetching inside `calculate_dynamic_allocation`:
either the two balances (with 0 defaults for unconnected venues), or a raised
exception with its message. -/
inductive AllocCall where
  | ok (binance_balance drift_balance : ℚ)
  | exn (msg : String)

/-- Result of `calculate_dynamic_allocation` including its `except` branch,
whose dict `{can_trade: False, allocation: 0, reason: ...}` (main.py
lines 391-395) carries no balance keys. -/
inductive AllocationOutcome where
  | ok (r : AllocationData)
  | exnFallback (msg : String)

/-- The `allocation_result['can_trade']` key, present in both variants. -/
def AllocationOutcome.can_trade : AllocationOutcome → Bool
  | .ok r => r.can_trade
  | .exnFallback _ => false

/-- The `allocation_result['allocation']` key, present in both variants. -/
def AllocationOutcome.allocation : AllocationOutcome → ℚ
  | .ok r => r.allocation
  | .exnFallback _ => 0

/-- The `allocation_result['reason']` key, present in both variants. -/
def AllocationOutcome.reason : AllocationOutcome → String
  | .ok r => r.reason
  | .exnFallback msg => "Balance calculation error: " ++ msg

/-- DriftArbBot.calculate_dynamic_allocation (main.py lines 327-395),
including the exception fallback. -/
def calculate_dynamic_allocation_run (call : AllocCall)
    (active_orders : List OrderRecord) : AllocationOutcome :=
  match call with
  | .ok binance_balance drift_balance =>
    .ok (calculate_dynamic_allocation binance_balance drift_balance active_orders)
  | .exn msg => .exnFallback msg

/-- Mutable fields of DriftArbBot touched by the decision core
(main.py lines 315-322). -/
structure BotState where
  active_orders : List OrderRecord
  max_concurrent_orders : ℕ
  order_counter : ℕ
  opportunities_found : ℕ
  trades_attempted : ℕ
  trades_successful : ℕ

/-- Bot state right after `__init__` (main.py lines 315-322). -/
def initState : BotState :=
  { active_orders := []
    max_concurrent_orders := 2
    order_counter := 0
    opportunities_found := 0
    trades_attempted := 0
    trades_successful := 0 }

/-- Environment for one `_execute_professional_arbitrage` run: the balance
fetch used by the allocation, the executor's venue calls, whether the real
Drift integration object exists, and the current timestamp. -/
structure ProfEnv where
  alloc : AllocCall
  exec : ExecEnv
  drift_integration : Bool
  timestamp : ℕ

/-- DriftArbBot._execute_professional_arbitrage (main.py lines 498-566):
returns the result dict and the updated bot state. -/
def execute_professional_arbitrage (env : ProfEnv) (opportunity : Opportunity)
    (s : BotState) : ExecResult × BotState :=
  if s.active_orders.length ≥ s.max_concurrent_orders then
    ({ success := false, error := some "Maximum concurrent orders reached" }, s)
  else
    let allocation_result := calculate_dynamic_allocation_run env.alloc s.active_orders
    if allocation_result.can_trade = false then
      ({ success := false, error := some allocation_result.reason }, s)
    else
      let trade_size_usd := allocation_result.allocation
      let s1 : BotState := { s with trades_attempted := s.trades_attempted + 1 }
      let order_id := "ARB_" ++ toString (s1.order_counter + 1) ++ "_"
        ++ toString env.timestamp
      let s2 : BotState := { s1 with order_counter := s1.order_counter + 1 }
      let result :=
        if env.drift_integration then
          execute_arbitrage env.exec opportunity trade_size_usd
        else
          { success := false, error := some "Real Drift not available" }
      if result.success then
        let order_record : OrderRecord :=
          { order_id := order_id
            allocated_amount := trade_size_usd
            timestamp := env.timestamp
            pair := opportunity.pair
            result := result }
        (result,
          { s2 with
            active_orders := s2.active_orders ++ [order_record]
            trades_successful := s2.trades_successful + 1 })
      else
        (result, s2)

/-- One state-mutating operation of the bot's decision loop.  `priceTick`
models `price_callback` on a detected opportunity (main.py lines 469-487):
`opportunities_found` is incremented, then `_execute_professional_arbitrage`
runs when testnet trading is enabled; `quietTick` models a tick with no
opportunity, which leaves the state unchanged. -/
inductive BotOp where
  | priceTick (env : ProfEnv) (opportunity : Opportunity) (testnet : Bool)
  | quietTick

/-- Effect of one operation on the bot state. -/
def applyOp (op : BotOp) (s : BotState) : BotState :=
  match op with
  | .priceTick env opportunity testnet =>
    let s1 : BotState := { s with opportunities_found := s.opportunities_found + 1 }
    if testnet then (execute_professional_arbitrage env opportunity s1).2 else s1
  | .quietTick => s

/-- States reachable from the freshly initialised bot by a sequence of
operations. -/
def Reachable (s : BotState) : Prop :=
  ∃ ops : List BotOp, s = ops.foldl (fun st op => applyOp op st) initState

/-- The `success_rate` computed for reports (main.py line 651):
`trades_successful / max(1, trades_attempted) * 100`. -/
def success_rate (s : BotState) : ℚ :=
  ((s.trades_successful : ℚ) / ((max 1 s.trades_attempted : ℕ) : ℚ)) * 100

end DriftArb
namespace DriftArb

/-- Concrete opportunity used by the spec's end-to-end example:
spot 100, perp 101. -/
def opp0 : Opportunity := { pair := "SOL/USDT", spot_price := 100, perp_price := 101 }

/-- Concrete active order of 450 USD, used by the allocation examples. -/
def rec450 : OrderRecord :=
  { order_id := "ARB_1_1700000000", allocated_amount := 450, timestamp := 1700000000
    pair := "SOL/USDT", result := { success := true } }

/-- Concrete executor environment in which every venue call succeeds. -/
def env0 : ExecEnv :=
  { balances := .ok 100000 1000
    binance_order := .ret (some { orderId := "b1", status := "FILLED" })
    drift_order := .ret (some { orderId := "d1", status := "PLACED" }) }

/-- Concrete executor environment with zero balances on both assets: the
balance query succeeds and reports insufficiency. -/
def envInsuff : ExecEnv :=
  { balances := .ok 0 0, binance_order := .ret none, drift_order := .ret none }

/-- Concrete executor environment whose balance query raises. -/
def envQueryFail : ExecEnv :=
  { balances := .exn "Connection refused", binance_order := .ret none
    drift_order := .ret none }

/-- Concrete executor environment in which the Binance order call raises an
exception whose message is the empty string. -/
def envEmptyExn : ExecEnv :=
  { balances := .ok 100000 1000, binance_order := .exn "", drift_order := .ret none }

/-- Concrete coordinator environment: comfortable balances for allocation,
but zero spendable balances at execution time, so the balance gate rejects. -/
def envC7 : ProfEnv :=
  { alloc := .ok 1000 1000, exec := envInsuff
    drift_integration := true, timestamp := 1700000000 }

end DriftArb

namespace DriftArb

/-- Helper: a nonempty string stays nonempty after appending on the right. -/
theorem append_left_ne_empty (s t : String) (h : s ≠ "") : s ++ t ≠ "" := by
  intro hst
  apply h
  have hd : (s ++ t).data = s.data ++ t.data := String.data_append s t
  rw [hst] at hd
  have hs : s.data = [] := (List.append_eq_nil.mp hd.symm).1
  cases s
  simp_all

/-- C4: for every opportunity with positive prices, direction resolution is a
pure total function of the two prices: `perp_price > spot_price` yields the
buy-spot/short-perp direction and `perp_price ≤ spot_price` (including ties)
yields the sell-spot/long-perp direction.  Totality holds by construction:
`determine_arbitrage_direction` is a total function with no failure mode. -/
theorem direction_resolution (o : Opportunity)
    (hs : 0 < o.spot_price) (hp : 0 < o.perp_price) :
    (o.perp_price > o.spot_price →
      (determine_arbitrage_direction o).action = "BUY_SPOT_SELL_PERP" ∧
      (determine_arbitrage_direction o).binance_side = "BUY" ∧
      (determine_arbitrage_direction o).drift_side = "SHORT") ∧
    (o.perp_price ≤ o.spot_price →
      (determine_arbitrage_direction o).action = "SELL_SPOT_BUY_PERP" ∧
      (determine_arbitrage_direction o).binance_side = "SELL" ∧
      (determine_arbitrage_direction o).drift_side = "LONG") := by
  constructor
  · intro h
    simp [determine_arbitrage_direction, if_pos h]
  · intro h
    simp [determine_arbitrage_direction, if_neg (not_lt.mpr h)]

/-- Witness for C4 at the spec's example prices (spot 100, perp 101). -/
theorem direction_resolution_witness :
    (determine_arbitrage_direction opp0).action = "BUY_SPOT_SELL_PERP" ∧
    (determine_arbitrage_direction opp0).binance_side = "BUY" ∧
    (determine_arbitrage_direction opp0).drift_side = "SHORT" :=
  (direction_resolution opp0 (by decide) (by decide)).1 (by decide)

/-- C6: when the balance query succeeds, a buy-side direction requires
`trade_size_usd × (1 + 0.001)` of USDT and is sufficient iff the USDT
balance reaches it; a sell-side direction (the `else` branch of the source)
requires `(trade_size_usd / spot_price) × (1 + 0.001)` of SOL and is
sufficient iff the SOL balance reaches it. -/
theorem balance_gate_requirements (usdt sol : ℚ) (direction : TradeDirection)
    (trade_size_usd spot_price : ℚ) (hs : 0 < spot_price) :
    (direction.binance_side = "BUY" →
      ∃ bc, check_required_balances (.ok usdt sol) direction trade_size_usd spot_price
          = .ok bc ∧
        bc.required = trade_size_usd * (1 + 0.001) ∧
        bc.available = usdt ∧
        (bc.sufficient = true ↔ usdt ≥ bc.required)) ∧
    (direction.binance_side ≠ "BUY" →
      ∃ bc, check_required_balances (.ok usdt sol) direction trade_size_usd spot_price
          = .ok bc ∧
        bc.required = trade_size_usd / spot_price * (1 + 0.001) ∧
        bc.available = sol ∧
        (bc.sufficient = true ↔ sol ≥ bc.required)) := by
  constructor
  · intro h
    simp only [check_required_balances, if_pos h]
    refine ⟨_, rfl, ?_, rfl, ?_⟩
    · norm_num
    · simp
  · intro h
    simp only [check_required_balances, if_neg h]
    refine ⟨_, rfl, ?_, rfl, ?_⟩
    · norm_num
    · simp

/-- Witness for C6: buy-side direction at spot 100, trade size 100, zero
balances. -/
theorem balance_gate_requirements_witness :
    ∃ bc, check_required_balances (.ok 0 0) (determine_arbitrage_direction opp0) 100 100
        = .ok bc ∧
      bc.required = 100 * (1 + 0.001) ∧
      bc.available = 0 ∧
      (bc.sufficient = true ↔ (0 : ℚ) ≥ bc.required) :=
  (balance_gate_requirements 0 0 (determine_arbitrage_direction opp0) 100 100
    (by decide)).1 (by decide)

end DriftArb

namespace DriftArb

/-- C2: the planner's raw allocation is tiered by the active-order count over
the effective balance `min binance_balance drift_balance`: 45% of it with no
active orders, 90% of the remainder after the allocated amounts with one, and
0 (with `can_trade = false`) with two or more; the final allocation is the
clamped raw tier.  With no active orders and effective balance 1000 the raw
allocation is 450 and `can_trade` is true. -/
theorem allocation_tiers (binance_balance drift_balance : ℚ)
    (active_orders : List OrderRecord) :
    (calculate_dynamic_allocation binance_balance drift_balance active_orders).allocation
      = clamp_allocation
          (raw_allocation (min binance_balance drift_balance) active_orders) ∧
    (active_orders.length = 0 →
      raw_allocation (min binance_balance drift_balance) active_orders
        = min binance_balance drift_balance * 0.45) ∧
    (active_orders.length = 1 →
      raw_allocation (min binance_balance drift_balance) active_orders
        = (min binance_balance drift_balance
            - (active_orders.map (fun order => order.allocated_amount)).sum) * 0.90) ∧
    (2 ≤ active_orders.length →
      raw_allocation (min binance_balance drift_balance) active_orders = 0 ∧
      (calculate_dynamic_allocation binance_balance drift_balance active_orders).can_trade
        = false) ∧
    (active_orders.length = 0 → min binance_balance drift_balance = 1000 →
      raw_allocation (min binance_balance drift_balance) active_orders = 450 ∧
      (calculate_dynamic_allocation binance_balance drift_balance active_orders).can_trade
        = true) := by
  refine ⟨rfl, ?_, ?_, ?_, ?_⟩
  · intro h
    simp [raw_allocation, h]
  · intro h
    simp [raw_allocation, h, used_capital]
  · intro h
    have h0 : active_orders.length ≠ 0 := by omega
    have h1 : active_orders.length ≠ 1 := by omega
    constructor
    · simp [raw_allocation, h0, h1]
    · simp [calculate_dynamic_allocation, clamp_allocation, raw_allocation, h0, h1,
        min_trade_size, max_trade_size]
  · intro h he
    have hraw : raw_allocation (min binance_balance drift_balance) active_orders = 450 := by
      rw [he] at *
      simp [raw_allocation, h]
      norm_num
    refine ⟨hraw, ?_⟩
    simp [calculate_dynamic_allocation, ← he, hraw, clamp_allocation,
      min_trade_size, max_trade_size]
    norm_num

/-- Witness for C2: balances 1000/1000 and no active orders give raw
allocation 450 with `can_trade` true. -/
theorem allocation_tiers_witness :
    raw_allocation (min 1000 1000) [] = 450 ∧
    (calculate_dynamic_allocation 1000 1000 []).can_trade = true :=
  (allocation_tiers 1000 1000 []).2.2.2.2 rfl (by decide)

/-- C3: the final allocation is 0 or lies in `[50, 200]`; a raw allocation
below 50 is forced to 0 and one above 200 is capped at 200; `can_trade` holds
iff the final allocation is at least 50.  With one active order of 450 and
effective balance 1000, the raw allocation is 495 and is capped to 200. -/
theorem allocation_clamp (binance_balance drift_balance : ℚ)
    (active_orders : List OrderRecord) :
    ((calculate_dynamic_allocation binance_balance drift_balance active_orders).allocation
        = 0 ∨
      (min_trade_size
          ≤ (calculate_dynamic_allocation binance_balance drift_balance
              active_orders).allocation ∧
        (calculate_dynamic_allocation binance_balance drift_balance
            active_orders).allocation ≤ max_trade_size)) ∧
    (raw_allocation (min binance_balance drift_balance) active_orders < min_trade_size →
      (calculate_dynamic_allocation binance_balance drift_balance active_orders).allocation
        = 0) ∧
    (max_trade_size < raw_allocation (min binance_balance drift_balance) active_orders →
      (calculate_dynamic_allocation binance_balance drift_balance active_orders).allocation
        = max_trade_size) ∧
    ((calculate_dynamic_allocation binance_balance drift_balance active_orders).can_trade
        = true ↔
      min_trade_size
        ≤ (calculate_dynamic_allocation binance_balance drift_balance
            active_orders).allocation) ∧
    (∀ order : OrderRecord, order.allocated_amount = 450 →
      min binance_balance drift_balance = 1000 →
      raw_allocation (min binance_balance drift_balance) [order] = 495 ∧
      (calculate_dynamic_allocation binance_balance drift_balance [order]).allocation
        = 200) := by
  have halloc :
      (calculate_dynamic_allocation binance_balance drift_balance active_orders).allocation
        = clamp_allocation
            (raw_allocation (min binance_balance drift_balance) active_orders) := rfl
  refine ⟨?_, ?_, ?_, ?_, ?_⟩
  · rw [halloc]
    unfold clamp_allocation
    split
    · exact Or.inl rfl
    · split
      · refine Or.inr ⟨?_, le_refl _⟩
        norm_num [min_trade_size, max_trade_size]
      · rename_i h1 h2
        exact Or.inr ⟨le_of_not_lt h1, le_of_not_lt h2⟩
  · intro h
    rw [halloc]
    unfold clamp_allocation
    simp [h]
  · intro h
    rw [halloc]
    unfold clamp_allocation
    have h1 : ¬ (raw_allocation (min binance_balance drift_balance) active_orders
        < min_trade_size) := by
      push_neg
      calc min_trade_size ≤ max_trade_size := by norm_num [min_trade_size, max_trade_size]
        _ ≤ _ := le_of_lt h
    rw [if_neg h1, if_pos h]
  · simp [calculate_dynamic_allocation, ge_iff_le]
  · intro order ho he
    have hraw : raw_allocation (min binance_balance drift_balance) [order] = 495 := by
      simp [raw_allocation, used_capital, ho, he]
      norm_num
    refine ⟨hraw, ?_⟩
    have : (calculate_dynamic_allocation binance_balance drift_balance [order]).allocation
        = clamp_allocation (raw_allocation (min binance_balance drift_balance) [order]) :=
      rfl
    rw [this, hraw]
    norm_num [clamp_allocation, min_trade_size, max_trade_size]

/-- Witness for C3: with the concrete 450-USD active order and balances
1000/1000, the raw allocation 495 is capped to 200. -/
theorem allocation_clamp_witness :
    raw_allocation (min 1000 1000) [rec450] = 495 ∧
    (calculate_dynamic_allocation 1000 1000 [rec450]).allocation = 200 :=
  (allocation_clamp 1000 1000 []).2.2.2.2 rec450 rfl (by decide)

end DriftArb

namespace DriftArb

/-- Helper: in the all-success environment `env0`, the spec's end-to-end
example execution succeeds. -/
theorem exec_env0_success : (execute_arbitrage env0 opp0 100).success = true := by
  norm_num [execute_arbitrage, check_required_balances, determine_arbitrage_direction,
    env0, opp0]

/-- C5: every successful execution's profit breakdown satisfies
`quantity = S / spot`, directional `profit_per_unit`,
`gross = profit_per_unit * quantity`, `fees = S * 0.002`,
`net = gross - fees` and `roi = net / S * 100`; at spot 100, perp 101,
size 100 the breakdown is quantity 1, profit 1 per unit, gross 1, fees 0.2,
net 0.8, roi 0.8. -/
theorem profit_breakdown (env : ExecEnv) (o : Opportunity) (S : ℚ) :
    ((execute_arbitrage env o S).success = true →
      ∃ td, (execute_arbitrage env o S).trade_details = some td ∧
        td.sol_quantity = S / o.spot_price ∧
        td.profit_per_unit =
          (if (determine_arbitrage_direction o).binance_side = "BUY"
            then o.perp_price - o.spot_price
            else o.spot_price - o.perp_price) ∧
        td.gross_profit = td.profit_per_unit * td.sol_quantity ∧
        td.estimated_fees = S * 0.002 ∧
        td.net_profit = td.gross_profit - td.estimated_fees ∧
        td.roi_percent = td.net_profit / S * 100) ∧
    (execute_arbitrage env0 opp0 100).trade_details = some
      { sol_quantity := 1, trade_size_usd := 100, spot_price := 100, perp_price := 101
        profit_per_unit := 1, gross_profit := 1, estimated_fees := 0.2
        net_profit := 0.8, roi_percent := 0.8 } := by
  constructor
  · intro h
    simp only [execute_arbitrage] at h ⊢
    rcases hb : check_required_balances env.balances (determine_arbitrage_direction o) S
        o.spot_price with bc | e
    · rw [hb] at h
      cases hsuf : bc.sufficient
      · simp [hsuf] at h
      · rcases hbo : env.binance_order with bo | msg
        · rw [hbo] at h
          rcases bo with _ | bo
          · simp [hsuf] at h
          · rcases hdo : env.drift_order with dor | msg
            · rw [hdo] at h
              rcases dor with _ | dor
              · simp [hsuf] at h
              · simp only [hsuf, Bool.true_eq_false, if_false]
                exact ⟨_, rfl, rfl, rfl, rfl, rfl, rfl, rfl⟩
            · rw [hdo] at h
              simp [hsuf] at h
        · rw [hbo] at h
          simp [hsuf] at h
    · rw [hb] at h
      simp at h
  · norm_num [execute_arbitrage, check_required_balances, determine_arbitrage_direction,
      env0, opp0]

/-- Witness for C5: the successful end-to-end example execution. -/
theorem profit_breakdown_witness :
    ∃ td, (execute_arbitrage env0 opp0 100).trade_details = some td ∧
      td.sol_quantity = 100 / opp0.spot_price ∧
      td.profit_per_unit =
        (if (determine_arbitrage_direction opp0).binance_side = "BUY"
          then opp0.perp_price - opp0.spot_price
          else opp0.spot_price - opp0.perp_price) ∧
      td.gross_profit = td.profit_per_unit * td.sol_quantity ∧
      td.estimated_fees = 100 * 0.002 ∧
      td.net_profit = td.gross_profit - td.estimated_fees ∧
      td.roi_percent = td.net_profit / 100 * 100 :=
  (profit_breakdown env0 opp0 100).1 exec_env0_success

end DriftArb

namespace DriftArb

/-- Helper: field-level effects of one `_execute_professional_arbitrage` call
on the bot state: the cap is never written; the order list either stays or
gains exactly one record, and only when it was strictly below the cap;
`trades_attempted` grows by at most one, and `trades_successful` grows only
together with `trades_attempted`. -/
theorem prof_effects (env : ProfEnv) (o : Opportunity) (s : BotState) :
    (execute_professional_arbitrage env o s).2.max_concurrent_orders
        = s.max_concurrent_orders ∧
    (execute_professional_arbitrage env o s).2.opportunities_found
        = s.opportunities_found ∧
    ((execute_professional_arbitrage env o s).2.active_orders = s.active_orders ∨
      (s.active_orders.length < s.max_concurrent_orders ∧
        ∃ r : OrderRecord,
          (execute_professional_arbitrage env o s).2.active_orders
            = s.active_orders ++ [r])) ∧
    ((execute_professional_arbitrage env o s).2.trades_attempted
        = s.trades_attempted ∨
      (execute_professional_arbitrage env o s).2.trades_attempted
        = s.trades_attempted + 1) ∧
    ((execute_professional_arbitrage env o s).2.trades_successful
        = s.trades_successful ∨
      ((execute_professional_arbitrage env o s).2.trades_successful
          = s.trades_successful + 1 ∧
        (execute_professional_arbitrage env o s).2.trades_attempted
          = s.trades_attempted + 1)) := by
  obtain ⟨alloc, exec, di, ts⟩ := env
  cases di
  · simp only [execute_professional_arbitrage]
    split
    · exact ⟨rfl, rfl, Or.inl rfl, Or.inl rfl, Or.inl rfl⟩
    · split
      · exact ⟨rfl, rfl, Or.inl rfl, Or.inl rfl, Or.inl rfl⟩
      · simp
  · simp only [execute_professional_arbitrage]
    split
    · exact ⟨rfl, rfl, Or.inl rfl, Or.inl rfl, Or.inl rfl⟩
    · rename_i hcap
      split
      · exact ⟨rfl, rfl, Or.inl rfl, Or.inl rfl, Or.inl rfl⟩
      · simp only [if_true]
        split
        · refine ⟨rfl, rfl, Or.inr ⟨by omega, ⟨_, rfl⟩⟩, Or.inr rfl, Or.inr ⟨rfl, rfl⟩⟩
        · exact ⟨rfl, rfl, Or.inl rfl, Or.inr rfl, Or.inl rfl⟩

/-- Helper: the same field-level effects for an arbitrary operation of the
decision loop (`opportunities_found` may additionally grow by one). -/
theorem applyOp_effects (op : BotOp) (s : BotState) :
    (applyOp op s).max_concurrent_orders = s.max_concurrent_orders ∧
    ((applyOp op s).active_orders = s.active_orders ∨
      (s.active_orders.length < s.max_concurrent_orders ∧
        ∃ r : OrderRecord, (applyOp op s).active_orders = s.active_orders ++ [r])) ∧
    ((applyOp op s).trades_attempted = s.trades_attempted ∨
      (applyOp op s).trades_attempted = s.trades_attempted + 1) ∧
    ((applyOp op s).trades_successful = s.trades_successful ∨
      ((applyOp op s).trades_successful = s.trades_successful + 1 ∧
        (applyOp op s).trades_attempted = s.trades_attempted + 1)) := by
  cases op with
  | quietTick => exact ⟨rfl, Or.inl rfl, Or.inl rfl, Or.inl rfl⟩
  | priceTick env o testnet =>
    cases testnet with
    | false => exact ⟨rfl, Or.inl rfl, Or.inl rfl, Or.inl rfl⟩
    | true =>
      obtain ⟨hmax, hopp, horders, hatt, hsucc⟩ := prof_effects env o
        { s with opportunities_found := s.opportunities_found + 1 }
      exact ⟨hmax, horders, hatt, hsucc⟩

/-- Helper: the order-cap bound, the constant cap value 2 and the
attempt/success counter inequality all hold in every reachable state. -/
theorem reachable_inv (s : BotState) (h : Reachable s) :
    s.max_concurrent_orders = 2 ∧
    s.active_orders.length ≤ s.max_concurrent_orders ∧
    s.trades_successful ≤ s.trades_attempted := by
  obtain ⟨ops, rfl⟩ := h
  suffices hgen : ∀ (start : BotState),
      start.max_concurrent_orders = 2 ∧
      start.active_orders.length ≤ start.max_concurrent_orders ∧
      start.trades_successful ≤ start.trades_attempted →
      (ops.foldl (fun st op => applyOp op st) start).max_concurrent_orders = 2 ∧
      (ops.foldl (fun st op => applyOp op st) start).active_orders.length
        ≤ (ops.foldl (fun st op => applyOp op st) start).max_concurrent_orders ∧
      (ops.foldl (fun st op => applyOp op st) start).trades_successful
        ≤ (ops.foldl (fun st op => applyOp op st) start).trades_attempted by
    exact hgen initState ⟨rfl, by simp [initState], by simp [initState]⟩
  induction ops with
  | nil => intro start hstart; simpa using hstart
  | cons op rest ih =>
    intro start hstart
    simp only [List.foldl_cons]
    apply ih
    obtain ⟨hmax2, hlen, hcnt⟩ := hstart
    obtain ⟨hmax, horders, hatt, hsucc⟩ := applyOp_effects op start
    refine ⟨by omega, ?_, ?_⟩
    · rcases horders with heq | ⟨hlt, r, heq⟩
      · rw [heq, hmax]
        exact hlen
      · rw [heq, hmax]
        simp only [List.length_append, List.length_singleton]
        omega
    · rcases hsucc with heq | ⟨heq, hatt1⟩
      · rcases hatt with h1 | h1 <;> omega
      · omega

end DriftArb

namespace DriftArb

/-- C1: in every state reachable from the freshly initialised bot by any
sequence of operations, the number of active orders never exceeds
`max_concurrent_orders`, which stays at its initial value 2: the coordinator
rejects before doing anything else once the cap is reached and appends at
most one order record per call. -/
theorem active_orders_bounded (s : BotState) (h : Reachable s) :
    s.active_orders.length ≤ s.max_concurrent_orders ∧
    s.max_concurrent_orders = 2 ∧
    s.active_orders.length ≤ 2 := by
  obtain ⟨hmax2, hlen, _⟩ := reachable_inv s h
  exact ⟨hlen, hmax2, by omega⟩

/-- Witness for C1: the initial state is reachable and satisfies the bound. -/
theorem active_orders_bounded_witness :
    initState.active_orders.length ≤ initState.max_concurrent_orders ∧
    initState.max_concurrent_orders = 2 ∧
    initState.active_orders.length ≤ 2 :=
  active_orders_bounded initState ⟨[], rfl⟩

/-- C10: in every reachable state `trades_successful ≤ trades_attempted`
(the success counter is only bumped inside an execution that already bumped
the attempt counter, and neither is ever decremented), so the reported
success rate `trades_successful / max(1, trades_attempted) * 100` never
exceeds 100. -/
theorem success_counter_bounded (s : BotState) (h : Reachable s) :
    s.trades_successful ≤ s.trades_attempted ∧ success_rate s ≤ 100 := by
  obtain ⟨_, _, hcnt⟩ := reachable_inv s h
  refine ⟨hcnt, ?_⟩
  unfold success_rate
  have hd : (1 : ℚ) ≤ ((max 1 s.trades_attempted : ℕ) : ℚ) := by
    exact_mod_cast Nat.le_max_left 1 s.trades_attempted
  have hnum : ((s.trades_successful : ℕ) : ℚ) ≤ ((max 1 s.trades_attempted : ℕ) : ℚ) := by
    exact_mod_cast le_trans hcnt (Nat.le_max_right 1 s.trades_attempted)
  have hdiv : ((s.trades_successful : ℕ) : ℚ) / ((max 1 s.trades_attempted : ℕ) : ℚ) ≤ 1 :=
    div_le_one_of_le₀ hnum (by linarith)
  calc ((s.trades_successful : ℕ) : ℚ) / ((max 1 s.trades_attempted : ℕ) : ℚ) * 100
      ≤ 1 * 100 := by
        apply mul_le_mul_of_nonneg_right hdiv
        norm_num
    _ = 100 := by norm_num

/-- Witness for C10: the initial state is reachable and satisfies the
bounds. -/
theorem success_counter_bounded_witness :
    initState.trades_successful ≤ initState.trades_attempted ∧
    success_rate initState ≤ 100 :=
  success_counter_bounded initState ⟨[], rfl⟩

end DriftArb

namespace DriftArb

/-- Helper: when the balance query succeeds and reports insufficiency, the
executor returns the structured insufficient-balance rejection carrying the
balance check. -/
theorem execute_arbitrage_insufficient (env : ExecEnv) (o : Opportunity) (S : ℚ)
    (bc : BalanceOk)
    (hb : check_required_balances env.balances (determine_arbitrage_direction o) S
        o.spot_price = .ok bc)
    (hsuf : bc.sufficient = false) :
    execute_arbitrage env o S =
      { success := false, error := some "Insufficient balance"
        direction := some (determine_arbitrage_direction o)
        balance_check := some (.ok bc) } := by
  simp only [execute_arbitrage]
  rw [hb]
  simp [hsuf]

/-- Helper: the concrete balance check of the `envC7` coordinator run: the
allocation gate grants 200 and the gate then requires 200.2 USDT against an
available 0. -/
theorem envC7_balance_check :
    check_required_balances envC7.exec.balances (determine_arbitrage_direction opp0)
      ((calculate_dynamic_allocation_run envC7.alloc initState.active_orders).allocation)
      opp0.spot_price
    = .ok { sufficient := false, required := 200.2, required_unit := "USDT"
            available := 0, available_unit := "USDT", action := "Buy SOL with USDT" } := by
  norm_num [envC7, envInsuff, opp0, initState, calculate_dynamic_allocation_run,
    AllocationOutcome.allocation, calculate_dynamic_allocation, clamp_allocation,
    raw_allocation, min_trade_size, max_trade_size, check_required_balances,
    determine_arbitrage_direction]

/-- Helper: the `envC7` allocation gate reports `can_trade`. -/
theorem envC7_can_trade :
    (calculate_dynamic_allocation_run envC7.alloc initState.active_orders).can_trade
      = true := by
  norm_num [envC7, initState, calculate_dynamic_allocation_run,
    AllocationOutcome.can_trade, calculate_dynamic_allocation, clamp_allocation,
    raw_allocation, min_trade_size, max_trade_size]

/-- C7 counterexample: a concrete coordinator run whose balance check reports
insufficient (the returned result is the insufficient-balance rejection) and
which nevertheless moves `trades_attempted` from 0 to 1, because the attempt
counter is incremented before the executor's balance gate runs. -/
theorem attempt_counter_balance_reject_counterexample :
    (execute_professional_arbitrage envC7 opp0 initState).1.success = false ∧
    (execute_professional_arbitrage envC7 opp0 initState).1.error
      = some "Insufficient balance" ∧
    initState.trades_attempted = 0 ∧
    (execute_professional_arbitrage envC7 opp0 initState).2.trades_attempted = 1 := by
  norm_num [execute_professional_arbitrage, calculate_dynamic_allocation_run,
    AllocationOutcome.can_trade, AllocationOutcome.allocation,
    calculate_dynamic_allocation, clamp_allocation, raw_allocation, used_capital,
    min_trade_size, max_trade_size, execute_arbitrage, check_required_balances,
    determine_arbitrage_direction, envC7, envInsuff, opp0, initState]

/-- C7 (amended): each step of the coordinator short-circuits to a failure
result on rejection, but the attempt is recorded after the concurrency and
allocation gates and before the balance gate: an execution rejected by the
balance check still returns the failure result, yet increments
`trades_attempted` by exactly one, leaving `trades_successful` and
`active_orders` unchanged. -/
theorem attempt_recorded_before_balance_gate (env : ProfEnv) (o : Opportunity)
    (s : BotState) (bc : BalanceOk)
    (hcap : s.active_orders.length < s.max_concurrent_orders)
    (halloc : (calculate_dynamic_allocation_run env.alloc s.active_orders).can_trade
      = true)
    (hdrift : env.drift_integration = true)
    (hb : check_required_balances env.exec.balances (determine_arbitrage_direction o)
        ((calculate_dynamic_allocation_run env.alloc s.active_orders).allocation)
        o.spot_price = .ok bc)
    (hsuf : bc.sufficient = false) :
    (execute_professional_arbitrage env o s).1.success = false ∧
    (execute_professional_arbitrage env o s).1.error = some "Insufficient balance" ∧
    (execute_professional_arbitrage env o s).2.trades_attempted
      = s.trades_attempted + 1 ∧
    (execute_professional_arbitrage env o s).2.trades_successful
      = s.trades_successful ∧
    (execute_professional_arbitrage env o s).2.active_orders = s.active_orders := by
  have hres := execute_arbitrage_insufficient env.exec o
    ((calculate_dynamic_allocation_run env.alloc s.active_orders).allocation) bc hb hsuf
  simp only [execute_professional_arbitrage]
  rw [if_neg (show ¬ s.active_orders.length ≥ s.max_concurrent_orders by omega)]
  rw [if_neg (show ¬ (calculate_dynamic_allocation_run env.alloc
    s.active_orders).can_trade = false by simp [halloc])]
  rw [hdrift, hres]
  simp

/-- Witness for the amended C7 at the concrete run `envC7`. -/
theorem attempt_recorded_before_balance_gate_witness :
    (execute_professional_arbitrage envC7 opp0 initState).1.success = false ∧
    (execute_professional_arbitrage envC7 opp0 initState).1.error
      = some "Insufficient balance" ∧
    (execute_professional_arbitrage envC7 opp0 initState).2.trades_attempted
      = initState.trades_attempted + 1 ∧
    (execute_professional_arbitrage envC7 opp0 initState).2.trades_successful
      = initState.trades_successful ∧
    (execute_professional_arbitrage envC7 opp0 initState).2.active_orders
      = initState.active_orders :=
  attempt_recorded_before_balance_gate envC7 opp0 initState _ (by decide)
    envC7_can_trade rfl envC7_balance_check rfl

end DriftArb

namespace DriftArb

/-- C8 counterexample: a concrete execution whose balance check reports
insufficient because the balance query raised; the returned failure result
carries no balance-check payload at all (so neither a required nor an
available amount) — its error is the message of the `KeyError` raised by the
rejection logging. -/
theorem balance_rejection_payload_counterexample :
    (execute_arbitrage envQueryFail opp0 100).success = false ∧
    (check_required_balances envQueryFail.balances (determine_arbitrage_direction opp0)
        100 opp0.spot_price).sufficient = false ∧
    (execute_arbitrage envQueryFail opp0 100).balance_check = none ∧
    (execute_arbitrage envQueryFail opp0 100).error = some "'required'" := by
  norm_num [execute_arbitrage, check_required_balances, BalanceCheckResult.sufficient,
    envQueryFail, opp0, keyErrorRequired, determine_arbitrage_direction]

/-- C8 (amended): when the balance query succeeds and reports insufficiency,
the failure result is the structured rejection carrying the balance check
with its required and available amounts; when the balance query itself
raises, the rejection logging reads the absent `required` key, and the
result is a generic failure with the `KeyError` message and no
required/available amounts. -/
theorem balance_rejection_payload (env : ExecEnv) (o : Opportunity) (S : ℚ) :
    (∀ bc : BalanceOk,
      check_required_balances env.balances (determine_arbitrage_direction o) S
          o.spot_price = .ok bc →
      bc.sufficient = false →
      execute_arbitrage env o S =
        { success := false, error := some "Insufficient balance"
          direction := some (determine_arbitrage_direction o)
          balance_check := some (.ok bc) }) ∧
    (∀ msg : String, env.balances = .exn msg →
      execute_arbitrage env o S =
        { success := false, error := some keyErrorRequired
          direction := some (determine_arbitrage_direction o) }) := by
  constructor
  · intro bc hb hsuf
    exact execute_arbitrage_insufficient env o S bc hb hsuf
  · intro msg hmsg
    simp only [execute_arbitrage, check_required_balances, hmsg]

/-- Helper: the concrete balance check of `envInsuff` at trade size 100:
100.1 USDT required against an available 0. -/
theorem envInsuff_balance_check :
    check_required_balances envInsuff.balances (determine_arbitrage_direction opp0) 100
      opp0.spot_price
    = .ok { sufficient := false, required := 100.1, required_unit := "USDT"
            available := 0, available_unit := "USDT", action := "Buy SOL with USDT" } := by
  norm_num [envInsuff, opp0, check_required_balances, determine_arbitrage_direction]

/-- Witness for the amended C8: the sufficient-query insufficient-balance
case at `envInsuff`. -/
theorem balance_rejection_payload_witness :
    execute_arbitrage envInsuff opp0 100 =
      { success := false, error := some "Insufficient balance",
        direction := some (determine_arbitrage_direction opp0),
        balance_check := some (.ok
          { sufficient := false, required := 100.1, required_unit := "USDT",
            available := 0, available_unit := "USDT",
            action := "Buy SOL with USDT" }) } :=
  (balance_rejection_payload envInsuff opp0 100).1 _ envInsuff_balance_check rfl

end DriftArb

namespace DriftArb

/-- Helper: every failing executor run yields `some` error message, and that
message is nonempty unless it is the verbatim message of an exception raised
by one of the two order-placement calls. -/
theorem exec_failure_msgs (env : ExecEnv) (o : Opportunity) (S : ℚ)
    (h : (execute_arbitrage env o S).success = false) :
    ∃ msg, (execute_arbitrage env o S).error = some msg ∧
      (msg ≠ "" ∨ env.binance_order = .exn msg ∨ env.drift_order = .exn msg) := by
  simp only [execute_arbitrage] at h ⊢
  rcases hb : check_required_balances env.balances (determine_arbitrage_direction o) S
      o.spot_price with bc | e
  · rw [hb] at h
    cases hsuf : bc.sufficient
    · refine ⟨"Insufficient balance", ?_, Or.inl (by decide)⟩
      simp [hsuf]
    · rcases hbo : env.binance_order with bo | msg
      · rw [hbo] at h
        rcases bo with _ | bo
        · refine ⟨"Binance order failed", ?_, Or.inl (by decide)⟩
          simp [hsuf]
        · rcases hdo : env.drift_order with dor | msg
          · rw [hdo] at h
            rcases dor with _ | dor
            · refine ⟨"Drift order failed", ?_, Or.inl (by decide)⟩
              simp [hsuf]
            · simp [hsuf] at h
          · refine ⟨msg, ?_, Or.inr (Or.inr rfl)⟩
            simp [hsuf]
      · refine ⟨msg, ?_, Or.inr (Or.inl rfl)⟩
        simp [hsuf]
  · exact ⟨keyErrorRequired, by simp, Or.inl (by decide)⟩

/-- Helper: the allocation outcome's `reason` string is never empty: the
happy path builds it from the `"Order "` prefix and the exception fallback
from the `"Balance calculation error: "` prefix. -/
theorem alloc_reason_nonempty (call : AllocCall) (orders : List OrderRecord) :
    (calculate_dynamic_allocation_run call orders).reason ≠ "" := by
  cases call with
  | ok b d =>
    simp only [calculate_dynamic_allocation_run, AllocationOutcome.reason,
      calculate_dynamic_allocation]
    exact append_left_ne_empty _ _ (append_left_ne_empty _ _
      (append_left_ne_empty _ _ (append_left_ne_empty _ _ (by decide))))
  | exn msg =>
    simp only [calculate_dynamic_allocation_run, AllocationOutcome.reason]
    exact append_left_ne_empty _ _ (by decide)

/-- Helper: the coordinator's returned result dict is one of: the cap
rejection, the allocation rejection carrying the allocation reason, the
executor's own result (when the real Drift integration exists), or the
simulated-Drift rejection. -/
theorem prof_result_cases (env : ProfEnv) (o : Opportunity) (s : BotState) :
    (execute_professional_arbitrage env o s).1
        = { success := false, error := some "Maximum concurrent orders reached" } ∨
    (execute_professional_arbitrage env o s).1
        = { success := false
            error := some (calculate_dynamic_allocation_run env.alloc
              s.active_orders).reason } ∨
    (execute_professional_arbitrage env o s).1
        = execute_arbitrage env.exec o
            ((calculate_dynamic_allocation_run env.alloc s.active_orders).allocation) ∨
    (execute_professional_arbitrage env o s).1
        = { success := false, error := some "Real Drift not available" } := by
  obtain ⟨alloc, exec, di, ts⟩ := env
  cases di
  · simp only [execute_professional_arbitrage]
    split
    · exact Or.inl rfl
    · split
      · exact Or.inr (Or.inl rfl)
      · simp
  · simp only [execute_professional_arbitrage]
    split
    · exact Or.inl rfl
    · split
      · exact Or.inr (Or.inl rfl)
      · simp only [if_true]
        split
        · exact Or.inr (Or.inr (Or.inl rfl))
        · exact Or.inr (Or.inr (Or.inl rfl))

/-- C9 counterexample: when the Binance order call raises an exception whose
message is the empty string, the executor's failure result carries that empty
error string, so not every failure branch produces a non-empty error. -/
theorem failure_error_empty_counterexample :
    (execute_arbitrage envEmptyExn opp0 100).success = false ∧
    (execute_arbitrage envEmptyExn opp0 100).error = some "" := by
  norm_num [execute_arbitrage, check_required_balances, determine_arbitrage_direction,
    envEmptyExn, opp0]

/-- C9 (amended): every failure branch of both the executor and the
coordinator yields a result value with `success = false` and `some` specific
error string; the string is non-empty except in the exception-catch branches,
where it is the verbatim message of the exception raised by an order call
(and is therefore empty only when that message is).  Neither function can
propagate an exception: both are total functions into result values, every
raise site of the source sitting inside their `try` blocks. -/
theorem failure_results_no_raise (env : ExecEnv) (penv : ProfEnv) (o : Opportunity)
    (S : ℚ) (s : BotState) :
    ((execute_arbitrage env o S).success = false →
      ∃ msg, (execute_arbitrage env o S).error = some msg ∧
        (msg ≠ "" ∨ env.binance_order = .exn msg ∨ env.drift_order = .exn msg)) ∧
    ((execute_professional_arbitrage penv o s).1.success = false →
      ∃ msg, (execute_professional_arbitrage penv o s).1.error = some msg ∧
        (msg ≠ "" ∨ penv.exec.binance_order = .exn msg ∨
          penv.exec.drift_order = .exn msg)) := by
  constructor
  · exact fun h => exec_failure_msgs env o S h
  · intro h
    rcases prof_result_cases penv o s with heq | heq | heq | heq
    · rw [heq]
      exact ⟨"Maximum concurrent orders reached", rfl, Or.inl (by decide)⟩
    · rw [heq]
      exact ⟨(calculate_dynamic_allocation_run penv.alloc s.active_orders).reason, rfl,
        Or.inl (alloc_reason_nonempty penv.alloc s.active_orders)⟩
    · rw [heq] at h ⊢
      exact exec_failure_msgs penv.exec o _ h
    · rw [heq]
      exact ⟨"Real Drift not available", rfl, Or.inl (by decide)⟩

/-- Helper: the concrete `envInsuff` execution fails. -/
theorem exec_envInsuff_failure :
    (execute_arbitrage envInsuff opp0 100).success = false := by
  norm_num [execute_arbitrage, check_required_balances, determine_arbitrage_direction,
    envInsuff, opp0]

/-- Witness for the amended C9 at the concrete failing execution
`envInsuff`. -/
theorem failure_results_no_raise_witness :
    ∃ msg, (execute_arbitrage envInsuff opp0 100).error = some msg ∧
      (msg ≠ "" ∨ envInsuff.binance_order = .exn msg ∨
        envInsuff.drift_order = .exn msg) :=
  (failure_results_no_raise envInsuff envC7 opp0 100 initState).1 exec_envInsuff_failure

end DriftArb
